import Mathlib

/-!
Verification of `nemo/collections/llm/tools/auto_configurator/base_configs/basic.py`
(the `Basic` configuration-builder class).

We shallowly embed the Python code. Python values that flow through this class
(ints, strings, floats, booleans, lists, `None`) are modelled by `PyVal`;
floats are modelled by rationals (the constants and the two-decimal rounding in
this file are exactly representable decimals, so rational arithmetic coincides
with the intent of the source on every claim we settle). Dictionaries are
association lists of string keys; `dict.get` returns `PyVal.none` for a missing
key, as in Python. Operations that can raise (`len`, division) run in
`Except PyError`. Methods are embedded in state-passing style
(`Basic → Basic × result`), mirroring the fact that the Python methods read
`self` and return a fresh container.
-/

namespace NeMoBasic

/-- Errors that the embedded Python fragments can raise. -/
inductive PyError where
  | zeroDivisionError
  | typeError
deriving Repr, DecidableEq

/-- Python runtime values relevant to `basic.py`. Floats are modelled by `ℚ`. -/
inductive PyVal where
  | none : PyVal
  | int : Int → PyVal
  | str : String → PyVal
  | float : ℚ → PyVal
  | bool : Bool → PyVal
  | list : List PyVal → PyVal

/-- Python truthiness (`bool(v)`): `None` is falsy, numbers are truthy iff
nonzero, strings and lists are truthy iff nonempty. -/
def PyVal.isTruthy : PyVal → Bool
  | .none => false
  | .int i => i != 0
  | .str s => s.length != 0
  | .float q => decide (q ≠ 0)
  | .bool b => b
  | .list xs => !xs.isEmpty

/-- Python `len(v)`: defined on strings and lists, `TypeError` otherwise. -/
def PyVal.pyLen : PyVal → Except PyError Nat
  | .str s => Except.ok s.length
  | .list xs => Except.ok xs.length
  | _ => Except.error PyError.typeError

/-- Python `str(v)` as used by the f-string in `get_run_config`. Faithful on
`None`, ints, strings and booleans (the only cases the spec's data model puts
in `name`, `size`, `measure`); the string forms of floats and lists are
approximated and never relied on. -/
def PyVal.pyStr : PyVal → String
  | .none => "None"
  | .int i => toString i
  | .str s => s
  | .float q => toString q
  | .bool b => if b then "True" else "False"
  | .list xs => toString xs.length

/-- `cfg.get(k)`: the value at key `k`, or `PyVal.none` when the key is absent.
A dict is an association list of string keys (first occurrence wins). -/
def dictGet (cfg : List (String × PyVal)) (k : String) : PyVal :=
  match cfg.find? (fun p => p.1 == k) with
  | some p => p.2
  | Option.none => PyVal.none

/-- Whether key `k` is present in the dict. -/
def dictHasKey (cfg : List (String × PyVal)) (k : String) : Bool :=
  (cfg.find? (fun p => p.1 == k)).isSome

/-- Floor of a rational, computed on the normalised numerator/denominator. -/
def qfloor (q : ℚ) : Int := q.num.fdiv (q.den : Int)

/-- `np.round(q, 2)`: scale by 100, round half to even, scale back. -/
def rnd2 (q : ℚ) : ℚ :=
  let s : ℚ := 100 * q
  let f : Int := qfloor s
  let r : ℚ := s - (f : ℚ)
  let n : Int :=
    if r < 1 / 2 then f
    else if 1 / 2 < r then f + 1
    else if f % 2 = 0 then f else f + 1
  (n : ℚ) / 100

/-- `Basic._get_data_weights`, line by line from the source:
`if not self.data_paths: return None`; then `datafiles_num = len(self.data_paths)`;
`weight = np.round(1 / datafiles_num, 2)` (Python `1 / 0` raises
`ZeroDivisionError`); `weights = [float(weight)] * datafiles_num`. -/
def getDataWeightsE (data_paths : PyVal) : Except PyError PyVal :=
  if data_paths.isTruthy = false then Except.ok PyVal.none
  else
    match data_paths.pyLen with
    | Except.error e => Except.error e
    | Except.ok datafiles_num =>
      if datafiles_num = 0 then Except.error PyError.zeroDivisionError
      else
        Except.ok (PyVal.list (List.replicate datafiles_num
          (PyVal.float (rnd2 (1 / (datafiles_num : ℚ))))))

/-- The state of a `Basic` object after `__init__`. -/
structure Basic where
  name : PyVal
  version : PyVal
  size : PyVal
  measure : PyVal
  cfg : List (String × PyVal)
  num_nodes : PyVal
  num_gpus : PyVal
  max_steps : PyVal
  seq_length : PyVal
  global_batch_size : PyVal
  tokenizer_path : PyVal
  data_paths : PyVal
  weights : PyVal

/-- `Basic.__init__`: stores the four scalar arguments and `cfg`, reads the
seven recognized keys with `cfg.get`, and derives `weights` via
`_get_data_weights` (the only step that can raise). -/
def Basic.init (name version size measure : PyVal) (cfg : List (String × PyVal)) :
    Except PyError Basic :=
  match getDataWeightsE (dictGet cfg "data_paths") with
  | Except.error e => Except.error e
  | Except.ok weights =>
    Except.ok
      { name := name
        version := version
        size := size
        measure := measure
        cfg := cfg
        num_nodes := dictGet cfg "num_nodes"
        num_gpus := dictGet cfg "gpu_count"
        max_steps := dictGet cfg "max_steps_per_run"
        seq_length := dictGet cfg "seq_length"
        global_batch_size := dictGet cfg "global_batch_size"
        tokenizer_path := dictGet cfg "tokenizer_path"
        data_paths := dictGet cfg "data_paths"
        weights := weights }

/-- `Basic.model_config`: placeholder, returns `None`. -/
def Basic.model_config (b : Basic) : Basic × PyVal := (b, PyVal.none)

/-- `Basic.tokenizer_config`: placeholder, returns `None`. -/
def Basic.tokenizer_config (b : Basic) : Basic × PyVal := (b, PyVal.none)

/-- The fields of the `Config(OptimizerConfig, ...)` record built by
`get_optim_config`. -/
structure OptimizerConfig where
  optimizer : String
  lr : ℚ
  min_lr : ℚ
  use_distributed_optimizer : Bool
  bf16 : Bool
  adam_beta1 : ℚ
  adam_beta2 : ℚ
  overlap_grad_reduce : Bool
  overlap_param_gather : Bool
deriving Repr, DecidableEq

/-- `Basic.get_optim_config`: the literal record from the source. -/
def Basic.get_optim_config (b : Basic) : Basic × OptimizerConfig :=
  (b,
    { optimizer := "adam"
      lr := 1 / 10000
      min_lr := 1 / 100000
      use_distributed_optimizer := true
      bf16 := true
      adam_beta1 := 9 / 10
      adam_beta2 := 95 / 100
      overlap_grad_reduce := false
      overlap_param_gather := true })

/-- `Basic.get_trainer_config`: the literal dict from the source, with the four
state-dependent entries reading `self`. -/
def Basic.get_trainer_config (b : Basic) : Basic × List (String × PyVal) :=
  (b,
    [("accelerator", PyVal.str "gpu"),
     ("precision", PyVal.str "bf16"),
     ("logger", PyVal.bool false),
     ("enable_checkpointing", PyVal.bool false),
     ("use_distributed_sampler", PyVal.bool false),
     ("max_epochs", PyVal.none),
     ("log_every_n_steps", PyVal.int 1),
     ("limit_val_batches", PyVal.int 1),
     ("limit_test_batches", PyVal.int 1),
     ("accumulate_grad_batches", PyVal.int 1),
     ("gradient_clip_val", PyVal.float 1),
     ("num_nodes", b.num_nodes),
     ("devices", b.num_gpus),
     ("max_steps", b.max_steps),
     ("val_check_interval", b.max_steps)])

/-- `Basic.get_data_config`: the literal dict from the source. -/
def Basic.get_data_config (b : Basic) : Basic × List (String × PyVal) :=
  (b,
    [("paths", b.data_paths),
     ("weights", b.weights),
     ("seq_length", b.seq_length),
     ("global_batch_size", b.global_batch_size),
     ("num_workers", PyVal.int 2),
     ("split", PyVal.str "99990,8,2"),
     ("index_mapping_dir", PyVal.none)])

/-- `Basic.get_run_config`: the literal dict from the source; the `name` entry
is the f-string `"{self.name}_{self.size}{self.measure}"`. -/
def Basic.get_run_config (b : Basic) : Basic × List (String × PyVal) :=
  (b,
    [("name", PyVal.str (b.name.pyStr ++ "_" ++ b.size.pyStr ++ b.measure.pyStr)),
     ("results_dir", PyVal.none),
     ("time_limit", PyVal.str "0-00:30:00")])

/-- Is an `Except` a success? -/
def exceptOk {α : Type} : Except PyError α → Bool
  | Except.ok _ => true
  | Except.error _ => false

/-- Values on which `len` is defined (sequences) or which are falsy: exactly the
`data_paths` values for which `_get_data_weights` cannot raise. The spec's data
model types `dataPaths` as an optional sequence, which satisfies this. -/
def weightSafe : PyVal → Bool
  | .str _ => true
  | .list _ => true
  | v => !v.isTruthy

/-- A concrete builder state corresponding to `Basic(name="gpt3", size=5)`. -/
def exampleBuilder : Basic :=
  { name := PyVal.str "gpt3"
    version := PyVal.none
    size := PyVal.int 5
    measure := PyVal.str "B"
    cfg := []
    num_nodes := PyVal.none
    num_gpus := PyVal.none
    max_steps := PyVal.none
    seq_length := PyVal.none
    global_batch_size := PyVal.none
    tokenizer_path := PyVal.none
    data_paths := PyVal.none
    weights := PyVal.none }

/-- A key that is absent from a dict is read back as `None` by `dict.get`. -/
theorem dictGet_eq_none_of_absent (cfg : List (String × PyVal)) (k : String)
    (h : dictHasKey cfg k = false) : dictGet cfg k = PyVal.none := by
  unfold dictGet
  unfold dictHasKey at h
  cases hf : List.find? (fun p => p.1 == k) cfg with
  | none => rfl
  | some p => rw [hf] at h; simp at h

/-- On a falsy `data_paths` value, `_get_data_weights` returns `None`. -/
theorem getDataWeightsE_falsy (v : PyVal) (h : v.isTruthy = false) :
    getDataWeightsE v = Except.ok PyVal.none := by
  unfold getDataWeightsE
  rw [h]
  rfl

/-- On any sequence-typed or falsy `data_paths` value, `_get_data_weights`
succeeds (no exception can escape the weight computation). -/
theorem getDataWeightsE_ok_of_weightSafe (v : PyVal) (h : weightSafe v = true) :
    ∃ w, getDataWeightsE v = Except.ok w := by
  cases v with
  | none => exact ⟨PyVal.none, rfl⟩
  | bool b =>
    cases b with
    | false => exact ⟨PyVal.none, rfl⟩
    | true => simp [weightSafe, PyVal.isTruthy] at h
  | int i =>
    have hi : i = 0 := by
      simpa [weightSafe, PyVal.isTruthy] using h
    subst hi
    exact ⟨PyVal.none, rfl⟩
  | float q =>
    have hq : q = 0 := by
      simpa [weightSafe, PyVal.isTruthy] using h
    subst hq
    exact ⟨PyVal.none, getDataWeightsE_falsy _ (by simp [PyVal.isTruthy])⟩
  | str s =>
    cases hL : s.length with
    | zero =>
      exact ⟨PyVal.none, getDataWeightsE_falsy _ (by simp [PyVal.isTruthy, hL])⟩
    | succ k =>
      refine ⟨PyVal.list (List.replicate s.length
        (PyVal.float (rnd2 (1 / (s.length : ℚ))))), ?_⟩
      have hT : (PyVal.str s).isTruthy = true := by simp [PyVal.isTruthy, hL]
      simp only [getDataWeightsE, hT, PyVal.pyLen, hL]
      simp
  | list xs =>
    cases xs with
    | nil => exact ⟨PyVal.none, rfl⟩
    | cons a t =>
      exact ⟨PyVal.list (List.replicate (a :: t).length
        (PyVal.float (rnd2 (1 / ((a :: t).length : ℚ))))), rfl⟩

/-- C1 counterexample: contrary to the claim, a present-but-empty `data_paths`
sequence does NOT trigger a division error. `if not self.data_paths` treats the
empty list as falsy, so `_get_data_weights` returns `None` and construction
succeeds. -/
theorem empty_data_paths_no_division_error :
    getDataWeightsE (PyVal.list []) = Except.ok PyVal.none ∧
    exceptOk (Basic.init PyVal.none PyVal.none PyVal.none (PyVal.str "B")
      [("data_paths", PyVal.list [])]) = true :=
  ⟨rfl, rfl⟩

/-- C1 (amended): if `dataPaths` is present but empty, `_get_data_weights`
returns absent/null without raising; the division in `_get_data_weights` is
guarded by the falsiness check, so a division error is unreachable for every
`data_paths` value, and the program has no division failure mode. -/
theorem division_error_unreachable :
    getDataWeightsE (PyVal.list []) = Except.ok PyVal.none ∧
    ∀ dp : PyVal, getDataWeightsE dp ≠ Except.error PyError.zeroDivisionError := by
  refine ⟨rfl, ?_⟩
  intro dp
  cases dp with
  | none => exact fun hc => Except.noConfusion hc
  | bool b =>
    cases b with
    | false => exact fun hc => Except.noConfusion hc
    | true =>
      intro hc
      injection hc with h2
      exact PyError.noConfusion h2
  | int i =>
    by_cases hi : i = 0
    · subst hi
      exact fun hc => Except.noConfusion hc
    · have hT : (PyVal.int i).isTruthy = true := by simp [PyVal.isTruthy, hi]
      simp only [getDataWeightsE, hT, PyVal.pyLen]
      simp
  | float q =>
    by_cases hq : q = 0
    · subst hq
      rw [getDataWeightsE_falsy _ (by simp [PyVal.isTruthy])]
      exact fun hc => Except.noConfusion hc
    · have hT : (PyVal.float q).isTruthy = true := by simp [PyVal.isTruthy, hq]
      simp only [getDataWeightsE, hT, PyVal.pyLen]
      simp
  | str s =>
    cases hL : s.length with
    | zero =>
      rw [getDataWeightsE_falsy _ (by simp [PyVal.isTruthy, hL])]
      exact fun hc => Except.noConfusion hc
    | succ k =>
      have hT : (PyVal.str s).isTruthy = true := by simp [PyVal.isTruthy, hL]
      simp only [getDataWeightsE, hT, PyVal.pyLen, hL]
      simp
  | list xs =>
    cases xs with
    | nil => exact fun hc => Except.noConfusion hc
    | cons a t =>
      exact fun hc => Except.noConfusion hc

/-- C2: for `data_paths` a sequence of length `n ≥ 1`, `_get_data_weights`
returns a list of exactly `n` floats, each equal to `np.round(1/n, 2)`; in
particular the weights list has the same length as `data_paths`. -/
theorem data_weights_equal_split (dp : List PyVal) (h : 1 ≤ dp.length) :
    ∃ ws : List ℚ,
      getDataWeightsE (PyVal.list dp) = Except.ok (PyVal.list (ws.map PyVal.float)) ∧
      ws.length = dp.length ∧
      ∀ w ∈ ws, w = rnd2 (1 / (dp.length : ℚ)) := by
  match dp, h with
  | a :: t, _ =>
    refine ⟨List.replicate (a :: t).length (rnd2 (1 / ((a :: t).length : ℚ))),
      ?_, by simp, ?_⟩
    · rw [List.map_replicate]
      rfl
    · intro w hw
      exact List.eq_of_mem_replicate hw

/-- C2 witness: three data paths give three weights, each `np.round(1/3, 2)`. -/
theorem data_weights_equal_split_witness :
    1 ≤ ([PyVal.str "a", PyVal.str "b", PyVal.str "c"] : List PyVal).length ∧
    ∃ ws : List ℚ,
      getDataWeightsE (PyVal.list [PyVal.str "a", PyVal.str "b", PyVal.str "c"]) =
        Except.ok (PyVal.list (ws.map PyVal.float)) ∧
      ws.length = ([PyVal.str "a", PyVal.str "b", PyVal.str "c"] : List PyVal).length ∧
      ∀ w ∈ ws,
        w = rnd2 (1 / (([PyVal.str "a", PyVal.str "b", PyVal.str "c"] :
          List PyVal).length : ℚ)) :=
  ⟨by decide,
   data_weights_equal_split [PyVal.str "a", PyVal.str "b", PyVal.str "c"] (by decide)⟩

/-- C3: when the `data_paths` key is absent from `cfg`, construction succeeds,
`weights` is `None`, and both the `paths` and `weights` entries of
`get_data_config` are `None`. -/
theorem absent_data_paths_all_none (n v s m : PyVal) (cfg : List (String × PyVal))
    (h : dictHasKey cfg "data_paths" = false) :
    ∃ b : Basic, Basic.init n v s m cfg = Except.ok b ∧
      b.data_paths = PyVal.none ∧
      b.weights = PyVal.none ∧
      dictGet (b.get_data_config).2 "paths" = PyVal.none ∧
      dictGet (b.get_data_config).2 "weights" = PyVal.none := by
  have hget : dictGet cfg "data_paths" = PyVal.none :=
    dictGet_eq_none_of_absent cfg "data_paths" h
  refine ⟨{ name := n, version := v, size := s, measure := m, cfg := cfg,
            num_nodes := dictGet cfg "num_nodes",
            num_gpus := dictGet cfg "gpu_count",
            max_steps := dictGet cfg "max_steps_per_run",
            seq_length := dictGet cfg "seq_length",
            global_batch_size := dictGet cfg "global_batch_size",
            tokenizer_path := dictGet cfg "tokenizer_path",
            data_paths := PyVal.none, weights := PyVal.none }, ?_, rfl, rfl, rfl, rfl⟩
  unfold Basic.init
  rw [hget]
  rfl

/-- C3 witness: a config carrying only `num_nodes` has no `data_paths` key. -/
theorem absent_data_paths_all_none_witness :
    ∃ b : Basic,
      Basic.init (PyVal.str "gpt3") PyVal.none (PyVal.int 5) (PyVal.str "B")
        [("num_nodes", PyVal.int 2)] = Except.ok b ∧
      b.data_paths = PyVal.none ∧
      b.weights = PyVal.none ∧
      dictGet (b.get_data_config).2 "paths" = PyVal.none ∧
      dictGet (b.get_data_config).2 "weights" = PyVal.none :=
  absent_data_paths_all_none (PyVal.str "gpt3") PyVal.none (PyVal.int 5)
    (PyVal.str "B") [("num_nodes", PyVal.int 2)] (by decide)

/-- C4: for every builder whose `name`, `size`, `measure` hold a string, an
integer and a string (non-null values, per the data model), `get_run_config`
returns exactly the dict with `name` formatted as `"{name}_{size}{measure}"`,
a `None` results directory, and the fixed time limit "0-00:30:00". -/
theorem run_config_contents (b : Basic) (nm ms : String) (sz : Int)
    (h1 : b.name = PyVal.str nm) (h2 : b.size = PyVal.int sz)
    (h3 : b.measure = PyVal.str ms) :
    (b.get_run_config).2 =
      [("name", PyVal.str (nm ++ "_" ++ toString sz ++ ms)),
       ("results_dir", PyVal.none),
       ("time_limit", PyVal.str "0-00:30:00")] := by
  simp [Basic.get_run_config, h1, h2, h3, PyVal.pyStr]

/-- C4 witness: name="gpt3", size=5, measure="B" gives run name "gpt3_5B". -/
theorem run_config_contents_witness :
    (exampleBuilder.get_run_config).2 =
      [("name", PyVal.str "gpt3_5B"),
       ("results_dir", PyVal.none),
       ("time_limit", PyVal.str "0-00:30:00")] := by
  have h := run_config_contents exampleBuilder "gpt3" "B" 5 rfl rfl rfl
  exact h

/-- C5: in `get_trainer_config`, the `max_steps` and `val_check_interval`
entries both read the builder's `max_steps` attribute, so they are always
equal to it and to each other. -/
theorem trainer_config_steps_sync (b : Basic) :
    dictGet (b.get_trainer_config).2 "max_steps" = b.max_steps ∧
    dictGet (b.get_trainer_config).2 "val_check_interval" = b.max_steps ∧
    dictGet (b.get_trainer_config).2 "max_steps" =
      dictGet (b.get_trainer_config).2 "val_check_interval" :=
  ⟨rfl, rfl, rfl⟩

/-- C6: `get_optim_config` returns the same fixed record of literal constants
on every builder state: optimizer "adam", lr 1e-4, min_lr 1e-5, distributed
optimizer on, bf16 on, betas 0.9/0.95, grad-reduce overlap off, param-gather
overlap on. -/
theorem optim_config_constant (b bb : Basic) :
    (b.get_optim_config).2 =
      { optimizer := "adam"
        lr := 1 / 10000
        min_lr := 1 / 100000
        use_distributed_optimizer := true
        bf16 := true
        adam_beta1 := 9 / 10
        adam_beta2 := 95 / 100
        overlap_grad_reduce := false
        overlap_param_gather := true } ∧
    (b.get_optim_config).2 = (bb.get_optim_config).2 :=
  ⟨rfl, rfl⟩

/-- C7: `get_data_config` carries exactly the builder's `data_paths`,
`weights`, `seq_length` and `global_batch_size`, together with the literal
constants `num_workers = 2`, split "99990,8,2", and a `None`
`index_mapping_dir`; these seven keys are the whole dict. -/
theorem data_config_contents (b : Basic) :
    dictGet (b.get_data_config).2 "paths" = b.data_paths ∧
    dictGet (b.get_data_config).2 "weights" = b.weights ∧
    dictGet (b.get_data_config).2 "seq_length" = b.seq_length ∧
    dictGet (b.get_data_config).2 "global_batch_size" = b.global_batch_size ∧
    dictGet (b.get_data_config).2 "num_workers" = PyVal.int 2 ∧
    dictGet (b.get_data_config).2 "split" = PyVal.str "99990,8,2" ∧
    dictGet (b.get_data_config).2 "index_mapping_dir" = PyVal.none ∧
    (b.get_data_config).2.map Prod.fst =
      ["paths", "weights", "seq_length", "global_batch_size", "num_workers",
       "split", "index_mapping_dir"] :=
  ⟨rfl, rfl, rfl, rfl, rfl, rfl, rfl, rfl⟩

/-- C8: construction is total on any config whose `data_paths` value (if any)
is a sequence or falsy — in particular whenever `data_paths` is missing — and
every missing recognized key resolves to a `None` attribute, with no
validation. (A present non-sequence truthy `data_paths` would raise a
`TypeError` at `len()`, outside the data model's types and the claim's
missing-key scope.) -/
theorem construction_missing_keys_total (n v s m : PyVal)
    (cfg : List (String × PyVal))
    (h : weightSafe (dictGet cfg "data_paths") = true) :
    ∃ b : Basic, Basic.init n v s m cfg = Except.ok b ∧
      (dictHasKey cfg "num_nodes" = false → b.num_nodes = PyVal.none) ∧
      (dictHasKey cfg "gpu_count" = false → b.num_gpus = PyVal.none) ∧
      (dictHasKey cfg "max_steps_per_run" = false → b.max_steps = PyVal.none) ∧
      (dictHasKey cfg "seq_length" = false → b.seq_length = PyVal.none) ∧
      (dictHasKey cfg "global_batch_size" = false →
        b.global_batch_size = PyVal.none) ∧
      (dictHasKey cfg "tokenizer_path" = false → b.tokenizer_path = PyVal.none) ∧
      (dictHasKey cfg "data_paths" = false →
        b.data_paths = PyVal.none ∧ b.weights = PyVal.none) := by
  obtain ⟨w, hw⟩ := getDataWeightsE_ok_of_weightSafe _ h
  refine ⟨{ name := n, version := v, size := s, measure := m, cfg := cfg,
            num_nodes := dictGet cfg "num_nodes",
            num_gpus := dictGet cfg "gpu_count",
            max_steps := dictGet cfg "max_steps_per_run",
            seq_length := dictGet cfg "seq_length",
            global_batch_size := dictGet cfg "global_batch_size",
            tokenizer_path := dictGet cfg "tokenizer_path",
            data_paths := dictGet cfg "data_paths", weights := w },
    ?_, ?_, ?_, ?_, ?_, ?_, ?_, ?_⟩
  · unfold Basic.init
    rw [hw]
  · exact fun hk => dictGet_eq_none_of_absent cfg "num_nodes" hk
  · exact fun hk => dictGet_eq_none_of_absent cfg "gpu_count" hk
  · exact fun hk => dictGet_eq_none_of_absent cfg "max_steps_per_run" hk
  · exact fun hk => dictGet_eq_none_of_absent cfg "seq_length" hk
  · exact fun hk => dictGet_eq_none_of_absent cfg "global_batch_size" hk
  · exact fun hk => dictGet_eq_none_of_absent cfg "tokenizer_path" hk
  · intro hk
    have hnone := dictGet_eq_none_of_absent cfg "data_paths" hk
    refine ⟨hnone, ?_⟩
    rw [hnone] at hw
    have h2 : Except.ok (ε := PyError) PyVal.none = Except.ok w := hw
    injection h2 with h3
    exact h3.symm

/-- C8 witness: a config with every recognized key missing constructs a
builder whose seven read attributes are all `None`. -/
theorem construction_missing_keys_total_witness :
    weightSafe (dictGet [("unrelated", PyVal.int 1)] "data_paths") = true ∧
    ∃ b : Basic,
      Basic.init (PyVal.str "gpt3") PyVal.none (PyVal.int 5) (PyVal.str "B")
        [("unrelated", PyVal.int 1)] = Except.ok b ∧
      (dictHasKey [("unrelated", PyVal.int 1)] "num_nodes" = false →
        b.num_nodes = PyVal.none) ∧
      (dictHasKey [("unrelated", PyVal.int 1)] "gpu_count" = false →
        b.num_gpus = PyVal.none) ∧
      (dictHasKey [("unrelated", PyVal.int 1)] "max_steps_per_run" = false →
        b.max_steps = PyVal.none) ∧
      (dictHasKey [("unrelated", PyVal.int 1)] "seq_length" = false →
        b.seq_length = PyVal.none) ∧
      (dictHasKey [("unrelated", PyVal.int 1)] "global_batch_size" = false →
        b.global_batch_size = PyVal.none) ∧
      (dictHasKey [("unrelated", PyVal.int 1)] "tokenizer_path" = false →
        b.tokenizer_path = PyVal.none) ∧
      (dictHasKey [("unrelated", PyVal.int 1)] "data_paths" = false →
        b.data_paths = PyVal.none ∧ b.weights = PyVal.none) :=
  ⟨by decide,
   construction_missing_keys_total (PyVal.str "gpt3") PyVal.none (PyVal.int 5)
     (PyVal.str "B") [("unrelated", PyVal.int 1)] (by decide)⟩

/-- C9: the builder is immutable — every method returns the state unchanged —
and `get_data_config` reads the `weights` attribute stored at construction
rather than recomputing it. -/
theorem builder_immutable (b : Basic) :
    (b.model_config).1 = b ∧
    (b.tokenizer_config).1 = b ∧
    (b.get_optim_config).1 = b ∧
    (b.get_trainer_config).1 = b ∧
    (b.get_data_config).1 = b ∧
    (b.get_run_config).1 = b ∧
    dictGet (b.get_data_config).2 "weights" = b.weights :=
  ⟨rfl, rfl, rfl, rfl, rfl, rfl, rfl⟩

/-- C10: a present-but-empty `data_paths` is treated by the falsiness guard
exactly like an absent one: construction succeeds, `weights` is `None`, and
`get_data_config` then has `paths = []` and `weights = None`. -/
theorem empty_data_paths_like_absent (n v s m : PyVal)
    (cfg : List (String × PyVal))
    (h : dictGet cfg "data_paths" = PyVal.list []) :
    ∃ b : Basic, Basic.init n v s m cfg = Except.ok b ∧
      b.data_paths = PyVal.list [] ∧
      b.weights = PyVal.none ∧
      dictGet (b.get_data_config).2 "paths" = PyVal.list [] ∧
      dictGet (b.get_data_config).2 "weights" = PyVal.none := by
  refine ⟨{ name := n, version := v, size := s, measure := m, cfg := cfg,
            num_nodes := dictGet cfg "num_nodes",
            num_gpus := dictGet cfg "gpu_count",
            max_steps := dictGet cfg "max_steps_per_run",
            seq_length := dictGet cfg "seq_length",
            global_batch_size := dictGet cfg "global_batch_size",
            tokenizer_path := dictGet cfg "tokenizer_path",
            data_paths := PyVal.list [], weights := PyVal.none },
    ?_, rfl, rfl, rfl, rfl⟩
  unfold Basic.init
  rw [h]
  rfl

/-- C10 witness: constructing with `data_paths = []` succeeds with `None`
weights. -/
theorem empty_data_paths_like_absent_witness :
    ∃ b : Basic,
      Basic.init PyVal.none PyVal.none PyVal.none (PyVal.str "B")
        [("data_paths", PyVal.list [])] = Except.ok b ∧
      b.data_paths = PyVal.list [] ∧
      b.weights = PyVal.none ∧
      dictGet (b.get_data_config).2 "paths" = PyVal.list [] ∧
      dictGet (b.get_data_config).2 "weights" = PyVal.none :=
  empty_data_paths_like_absent PyVal.none PyVal.none PyVal.none (PyVal.str "B")
    [("data_paths", PyVal.list [])] rfl

end NeMoBasic
